import Mathlib

/-!
# Verification of the worldseek-studio streaming workflow-proxy subsystem

Shallow embedding of the proxy logic in
`backend/world_seek/utils/workflow.py` and
`backend/world_seek/routers/workflows.py`, together with theorems settling
the specification claims about it.

Modelling conventions:
* JSON values are modelled by the inductive `JValue`; Python dictionaries
  are association lists (first binding wins on lookup, as produced by
  `dict` construction), numbers are rationals.
* Each upstream chunk is represented by the outcome of the decode/parse
  classification the code performs on its text (`data:`-prefixed or not,
  JSON or not, the `[DONE]` sentinel), via the inductive `Chunk`.
* String-valued fields (`message`, `chunk`, `text`, ...) are modelled as
  strings: the code's behaviour on non-string values in those positions
  (a `TypeError` inside a logging slice, caught by the surrounding
  `except` into a generic error frame) is outside the model, as is
  logging itself.
* Asynchronous generators become pure functions from the upstream chunk
  list to the list of outbound SSE frames; the mutable `StreamStats` is
  threaded explicitly.
-/

/-- A JSON value (Python object), as manipulated by the proxy code. -/
inductive JValue where
  | null : JValue
  | jbool : Bool → JValue
  | num : Rat → JValue
  | str : String → JValue
  | arr : List JValue → JValue
  | obj : List (String × JValue) → JValue

/-- Python dictionary lookup `d[k]` / `d.get(k)` on an object: first
binding with the key. Non-objects have no keys. -/
def JValue.get? : JValue → String → Option JValue
  | .obj fields, k => (fields.find? (fun p => p.1 = k)).map (·.2)
  | _, _ => none

/-- Python `k in d` (key containment on a dict). -/
def JValue.hasKey (j : JValue) (k : String) : Bool :=
  (j.get? k).isSome

/-- Python `d.get(k, default)`. -/
def JValue.getD (j : JValue) (k : String) (d : JValue) : JValue :=
  (j.get? k).getD d

/-- Python truthiness of a JSON value (`if x:`). -/
def JValue.truthy : JValue → Bool
  | .null => false
  | .jbool b => b
  | .num q => q ≠ 0
  | .str s => s ≠ ""
  | .arr xs => !xs.isEmpty
  | .obj fs => !fs.isEmpty

/-- The string carried by a JSON value, when it is a string. -/
def JValue.asStr? : JValue → Option String
  | .str s => some s
  | _ => none

/-- Lookup of a string field: `d[k]` expected to be a string. -/
def JValue.getStr? (j : JValue) (k : String) : Option String :=
  (j.get? k).bind JValue.asStr?

/-- The element list of a JSON array (empty for non-arrays). -/
def JValue.asArr : JValue → List JValue
  | .arr xs => xs
  | _ => []

/-- One outbound SSE frame (`data: <json>\n\n`), identified by its JSON
shape.  The synthesized `id`/`timestamp` of a token envelope are elided
(they never influence control flow). -/
inductive Frame where
  /-- Frame `{'accumulated_content': c}` flushed on an upstream `[DONE]` line. -/
  | accumulatedFrame : String → Frame
  /-- the literal terminal line `data: [DONE]\n\n`. -/
  | doneFrame : Frame
  /-- Frame `{'content': c}`. -/
  | contentFrame : String → Frame
  /-- Frame `{'event': 'token', 'data': {'chunk': c, 'id': ..., 'timestamp': ...}}`. -/
  | tokenFrame : String → Frame
  /-- Frame `{'id': 'langflow-complete', 'complete': True, 'content': c, 'session_id'?: sid}`. -/
  | completeFrame : String → Option String → Frame
  /-- Frame `{'error': {'detail': d}}`. -/
  | errorFrame : String → Frame
deriving DecidableEq, Repr

/-- Is the frame a `langflow-complete` event? -/
def Frame.isComplete : Frame → Bool
  | .completeFrame _ _ => true
  | _ => false

/-- Is the frame the `[DONE]` sentinel? -/
def Frame.isDone : Frame → Bool
  | .doneFrame => true
  | _ => false

/-- Is the frame an `{'error': ...}` event? -/
def Frame.isError : Frame → Bool
  | .errorFrame _ => true
  | _ => false

/-- Is the frame a token-like content fragment (`{'content': c}` or a
token envelope)? -/
def Frame.isToken : Frame → Bool
  | .contentFrame _ => true
  | .tokenFrame _ => true
  | _ => false

/-- The content carried by a complete frame (`""` otherwise). -/
def Frame.completeContent : Frame → String
  | .completeFrame c _ => c
  | _ => ""

/-- The fields of `StreamStats` that influence the emitted frames
(`chunk_count`, `total_bytes` and the timing fields feed logging only). -/
structure StreamStats where
  accumulated : String
  sessionId : Option String
deriving DecidableEq, Repr

/-- Python `s.strip()`: drop leading and trailing whitespace (modelled
over the ASCII whitespace characters `Char.isWhitespace` covers). -/
def pyStrip (s : String) : String :=
  ⟨((s.data.dropWhile Char.isWhitespace).reverse.dropWhile
      Char.isWhitespace).reverse⟩

/-- Truthiness `if opt:` on an optional string in Python: `None` and `""` are falsy. -/
def pyTruthyStr : Option String → Bool
  | some s => s ≠ ""
  | none => false

/-- The classification the code performs on one decoded upstream chunk
text: `data:`-prefixed or not, JSON-parsable or not, and the `[DONE]`
sentinel payload. -/
inductive Chunk where
  /-- text starts with `data:` and the stripped payload is `[DONE]`. -/
  | dataDone : Chunk
  /-- text starts with `data:` and the stripped payload parses as `j`. -/
  | dataJson : JValue → Chunk
  /-- text starts with `data:` and the stripped payload is not JSON. -/
  | dataBad : Chunk
  /-- text has no `data:` prefix and parses as `j`. -/
  | rawJson : JValue → Chunk
  /-- text has no `data:` prefix and does not parse as JSON. -/
  | rawText : String → Chunk

/-- Error detail strings emitted by the stream path (verbatim from the
source). -/
def parseFailMsg : String := "数据格式解析失败，请稍后重试或联系管理员"

def noDataMsg : String := "服务器未返回任何数据，请检查工作流配置"

def emptyRespMsg : String := "智能体回答内容为空，请稍后重试"

/-- The text-extraction step of `process_json_data`'s nested-output walk:
for one `inner_output`, method 1 (`outputs.message.message`), else
method 2 (`results.message.data.text`).  Returns the assigned `content`
(possibly empty) or `none` when no assignment happened. -/
def innerContent? (inner : JValue) : Option String :=
  match inner.get? "outputs" with
  | some innerOuts =>
    if innerOuts.hasKey "message" then
      match innerOuts.get? "message" with
      | some message => message.getStr? "message"
      | none => none
    else
      match inner.get? "results" with
      | some results =>
        match results.get? "message" with
        | some message =>
          match message.get? "data" with
          | some d => d.getStr? "text"
          | none => none
        | none => none
      | none => none
  | none =>
    match inner.get? "results" with
    | some results =>
      match results.get? "message" with
      | some message =>
        match message.get? "data" with
        | some d => d.getStr? "text"
        | none => none
      | none => none
    | none => none

/-- The inner `for inner_output in output['outputs']` loop of
`process_json_data`: emit a `{'content': c}` frame for every inner
output carrying a truthy content, appending to the accumulated text. -/
def innerLoop : List JValue → StreamStats → List Frame × StreamStats
  | [], stats => ([], stats)
  | inner :: rest, stats =>
    let step : List Frame × StreamStats :=
      match innerContent? inner with
      | some content =>
        if content ≠ "" then
          ([Frame.contentFrame content],
           { stats with accumulated := stats.accumulated ++ content })
        else ([], stats)
      | none => ([], stats)
    let next := innerLoop rest step.2
    (step.1 ++ next.1, next.2)

/-- The outer `for output in result['outputs']` loop of
`process_json_data`. -/
def outerLoop : List JValue → StreamStats → List Frame × StreamStats
  | [], stats => ([], stats)
  | output :: rest, stats =>
    let step : List Frame × StreamStats :=
      match output.get? "outputs" with
      | some innerOuts =>
        if innerOuts.truthy then innerLoop innerOuts.asArr stats
        else ([], stats)
      | none => ([], stats)
    let next := outerLoop rest step.2
    (step.1 ++ next.1, next.2)

/-- Function `process_json_data` (the closure defined inside
`langflow_stream_generator`): classify one parsed JSON value, yield
content/token frames, and append to the accumulated content. -/
def processJsonData (j : JValue) (stats : StreamStats) :
    List Frame × StreamStats :=
  match j.get? "data" with
  | some jdata =>
    if jdata.hasKey "result" then
      -- 'data' in json_data and 'result' in json_data['data']
      let result := jdata.getD "result" .null
      match result.get? "outputs" with
      | some outs =>
        if outs.truthy then outerLoop outs.asArr stats
        else ([], stats)
      | none => ([], stats)
    else
      -- fall through to the token-event check below
      if j.getStr? "event" = some "token" ∧ jdata.hasKey "chunk" then
        match jdata.getStr? "chunk" with
        | some c =>
          if c ≠ "" then
            ([Frame.tokenFrame c],
             { stats with accumulated := stats.accumulated ++ c })
          else ([], stats)
        | none => ([], stats)
      else ([], stats)
  | none => ([], stats)

/-- The `end`-event extraction of `process_stream_chunk`
(lines 240–261): method (a) `result['message']` whenever the key is
present, otherwise method (b) the first
`outputs[].outputs[].results.message.data.text` found, a later output
overwriting a previous empty candidate.  Returns the last value assigned
to `final_content` (`none` = never assigned). -/
def endFinalContent (result : JValue) : Option String :=
  if result.hasKey "message" then
    result.getStr? "message"
  else
    match result.get? "outputs" with
    | some outs =>
      if outs.truthy then
        outs.asArr.foldl (fun acc output =>
          if pyTruthyStr acc then acc   -- broke out of the outer loop
          else
            match output.get? "outputs" with
            | some innerOuts =>
              if innerOuts.truthy then
                match innerOuts.asArr.findSome? (fun inner =>
                  match inner.get? "results" with
                  | some results =>
                    match results.get? "message" with
                    | some message =>
                      match message.get? "data" with
                      | some d =>
                        if d.hasKey "text" then d.getStr? "text" else none
                      | none => none
                    | none => none
                  | none => none) with
                | some t => some t
                | none => acc
              else acc
            | none => acc) none
      else none
    | none => none

/-- The `session_id` key included in a complete frame only when
`stats.session_id` is truthy (`if stats.session_id:`). -/
def sessionIfTruthy (sid : Option String) : Option String :=
  if pyTruthyStr sid then sid else none

/-- Function `process_stream_chunk`: dispatch on the chunk classification and, for
raw JSON chunks, on the Langflow event kind.  (The second
`elif json_data.get('event') == 'end'` branch of the source repeats the
first one's condition and is unreachable.) -/
def processStreamChunk (c : Chunk) (stats : StreamStats) :
    List Frame × StreamStats :=
  match c with
  | .dataDone =>
    ((if stats.accumulated ≠ ""
        then [Frame.accumulatedFrame stats.accumulated] else [])
      ++ [Frame.doneFrame], stats)
  | .dataJson j => processJsonData j stats
  | .dataBad => ([Frame.errorFrame parseFailMsg], stats)
  | .rawJson j =>
    if j.getStr? "event" = some "token" ∧
        (j.get? "data").elim false (fun d => d.hasKey "chunk") then
      match (j.getD "data" .null).getStr? "chunk" with
      | some tc =>
        if tc ≠ "" then
          ([Frame.contentFrame tc],
           { stats with accumulated := stats.accumulated ++ tc })
        else ([], stats)
      | none => ([], stats)
    else if j.getStr? "event" = some "end" ∧
        (j.get? "data").elim false (fun d => d.hasKey "result") then
      let result := (j.getD "data" .null).getD "result" .null
      match endFinalContent result with
      | some fc =>
        if fc ≠ "" then
          ([Frame.completeFrame fc (sessionIfTruthy stats.sessionId)],
           { stats with accumulated := fc })
        else ([], stats)
      | none => ([], stats)
    else if j.getStr? "event" = some "add_message" then
      ([], stats)
    else
      processJsonData j stats
  | .rawText s =>
    if pyStrip s ≠ "" then
      ([Frame.contentFrame s],
       { stats with accumulated := stats.accumulated ++ s })
    else ([], stats)

/-- The chunk loop of `langflow_stream_generator`: feed every chunk to
`process_stream_chunk`, threading the stats. -/
def runChunks : List Chunk → StreamStats → List Frame × StreamStats
  | [], stats => ([], stats)
  | c :: rest, stats =>
    let step := processStreamChunk c stats
    let next := runChunks rest step.2
    (step.1 ++ next.1, next.2)

/-- The outbound SSE frame sequence produced by
`langflow_stream_generator` on an HTTP-ok upstream response delivering
`chunks` and then closing normally: the chunk loop, the no-data check,
the final complete-or-error block, and the terminal `[DONE]`. -/
def relayFrames (chunks : List Chunk) : List Frame :=
  let run := runChunks chunks { accumulated := "", sessionId := none }
  (run.1 ++ (if chunks.isEmpty then [Frame.errorFrame noDataMsg] else []))
    ++ (if run.2.accumulated ≠ ""
          then [Frame.completeFrame run.2.accumulated run.2.sessionId]
          else [Frame.errorFrame emptyRespMsg])
    ++ [Frame.doneFrame]

/-! ## URL formatting and headers (`format_url`, `format_stream_url`,
`create_headers`) -/

/-- Does the character list `s` begin with the list `pre`? -/
def listStarts : List Char → List Char → Bool
  | [], _ => true
  | _ :: _, [] => false
  | p :: ps, c :: cs => p = c && listStarts ps cs

/-- Python `s.startswith(pre)`. -/
def strStarts (s pre : String) : Bool :=
  listStarts pre.data s.data

/-- Python `s.rstrip('/')`: drop every trailing `/`. -/
def rstripSlash (s : String) : String :=
  ⟨(s.data.reverse.dropWhile (· = '/')).reverse⟩

/-- Python `s.lstrip('/')`: drop every leading `/`. -/
def lstripSlash (s : String) : String :=
  ⟨s.data.dropWhile (· = '/')⟩

/-- Function `format_url`: absolute paths pass through, otherwise join base and
path with a single `/`. -/
def formatUrl (baseUrl path : String) : String :=
  if strStarts path "http://" || strStarts path "https://" then path
  else rstripSlash baseUrl ++ "/" ++ lstripSlash path

/-- Function `format_stream_url`: append `stream=true` with `&` when a query
string is already present, else with `?`. -/
def formatStreamUrl (url : String) : String :=
  if url.data.contains '?' then url ++ "&stream=true"
  else url ++ "?stream=true"

/-- Function `create_headers`: fixed content-type/accept headers, plus
`x-api-key` only when the token is truthy and non-blank
(`if token and token.strip():`). -/
def createHeaders (token : String) : List (String × String) :=
  let headers := [("Content-Type", "application/json"),
                  ("Accept", "application/json")]
  if token ≠ "" ∧ pyStrip token ≠ "" then headers ++ [("x-api-key", token)]
  else headers

/-! ## Retry with backoff (`retry_with_backoff`) -/

/-- Constant `MAX_RETRIES` of the source. -/
def MAX_RETRIES : Nat := 2

/-- Constant `RETRY_BACKOFF_FACTOR` of the source. -/
def RETRY_BACKOFF_FACTOR : Nat := 2

/-- The `for retry in range(max_retries + 1)` loop of
`retry_with_backoff`, with the attempts modelled as a function from the
attempt index to its outcome.  Returns the overall outcome, the number
of attempts performed, and the list of waits (in seconds) slept between
attempts.  The fuel-0 case is the `raise WorkflowError("重试失败")`
fallback reached only when the loop body never ran. -/
def retryAux (f : Nat → Except String α) (b : Nat) :
    Nat → Nat → Except String α × Nat × List Nat
  | _, 0 => (.error "重试失败", 0, [])
  | i, fuel + 1 =>
    match f i, fuel with
    | .ok v, _ => (.ok v, 1, [])
    | .error err, 0 => (.error err, 1, [])
    | .error _, fuel' + 1 =>
      let rest := retryAux f b (i + 1) (fuel' + 1)
      (rest.1, rest.2.1 + 1, b ^ i :: rest.2.2)

/-- Function `retry_with_backoff(func, max_retries=..., backoff_factor=...)`. -/
def retryWithBackoff (f : Nat → Except String α)
    (maxRetries backoffFactor : Nat) : Except String α × Nat × List Nat :=
  retryAux f backoffFactor 0 (maxRetries + 1)

/-- Function `retry_with_backoff` at its default configuration
(`max_retries=MAX_RETRIES`, `backoff_factor=RETRY_BACKOFF_FACTOR`). -/
def retryWithBackoffDefault (f : Nat → Except String α) :
    Except String α × Nat × List Nat :=
  retryWithBackoff f MAX_RETRIES RETRY_BACKOFF_FACTOR

/-! ## `call_langflow_api` and the streaming generator's HTTP-level
behaviour -/

/-- One upstream exchange as observed by
`langflow_stream_generator`: the HTTP status check, then the chunk
sequence of the response body. -/
structure UpstreamResponse where
  ok : Bool
  status : Nat
  chunks : List Chunk

/-- The status-code-to-message mapping of the non-ok branch of
`langflow_stream_generator`. -/
def statusErrorMsg (status : Nat) : String :=
  if status = 401 then "身份验证失败，请检查API密钥是否正确"
  else if status = 403 then "访问被拒绝，请检查权限配置"
  else if status = 404 then "工作流不存在，请检查URL和流程ID是否正确"
  else if status = 500 then "服务器内部错误，请稍后重试或联系管理员"
  else if status = 503 then "服务暂时不可用，请稍后重试"
  else s!"请求失败(状态码: {status})，请联系管理员"

/-- The full outbound frame sequence of `langflow_stream_generator` for
one upstream exchange: a non-ok status yields a single mapped error
frame and returns (before the terminal `[DONE]` of the normal path); an
ok status runs the chunk loop. -/
def streamRelayResponse (resp : UpstreamResponse) : List Frame :=
  if resp.ok then relayFrames resp.chunks
  else [Frame.errorFrame (statusErrorMsg resp.status)]

/-- The result of `call_langflow_api`: a `StreamingResponse` wrapping
the generator's frames, or the non-streaming JSON/error outcome. -/
inductive CallResult where
  | streamingResp : List Frame → CallResult
  | jsonResp : JValue → CallResult
  | callError : String → CallResult

/-- Function `call_langflow_api`: with `stream=True` it returns a
`StreamingResponse` over `langflow_stream_generator`, which performs a
single `session.post` (the retry controller is not consulted); with
`stream=False` it runs `make_request` under `retry_with_backoff`.  The
second component counts the upstream POST requests issued. -/
def callLangflowApi (stream : Bool)
    (streamUpstream : Nat → UpstreamResponse)
    (nonStreamAttempt : Nat → Except String JValue)
    (maxRetries backoffFactor : Nat) : CallResult × Nat :=
  if stream then
    (.streamingResp (streamRelayResponse (streamUpstream 0)), 1)
  else
    let r := retryWithBackoff nonStreamAttempt maxRetries backoffFactor
    (match r.1 with
     | .ok v => .jsonResp v
     | .error e => .callError e, r.2.1)

/-! ## The `/run` endpoint (`run_workflow` in `routers/workflows.py`) -/

/-- One entry of the incoming `messages` list; `content = none` models a
dict without a `"content"` key (non-dict entries behave like entries
failing the `role` test and are not distinguished). -/
structure ChatMessage where
  role : String
  content : Option String
deriving DecidableEq, Repr

/-- The scan of `run_workflow` (lines 451–456): walk `reversed(messages)`
and stop at the first entry with `role == "user"` and a `content` key,
taking its content; `""` when none matches. -/
def latestUserMessageAux : List ChatMessage → String
  | [] => ""
  | m :: rest =>
    if m.role = "user" ∧ m.content.isSome then m.content.getD ""
    else latestUserMessageAux rest

/-- The latest-user-message extraction of `run_workflow`. -/
def latestUserMessage (messages : List ChatMessage) : String :=
  latestUserMessageAux messages.reverse

/-- Python dict lookup on a parameter blob (first binding wins). -/
def pyDictGet (d : List (String × JValue)) (k : String) : Option JValue :=
  (d.find? (fun p => p.1 = k)).map (·.2)

/-- Merge `merged_params = {**workflow_params, **agent_params}`: the shallow
dict merge, modelled up to key order (lookups agree with the Python
dict; only lookups are ever performed on it). -/
def mergeParams (wp ap : List (String × JValue)) :
    List (String × JValue) :=
  wp.filter (fun p => (pyDictGet ap p.1).isNone) ++ ap

/-- The knowledge-augmented part of the request payload
(`input_value["kb_params"]`). -/
structure KbParams where
  datasetId : JValue
  text : String
  searchMode : JValue
  limit : JValue
  similarity : JValue
  usingReRank : JValue
  datasetSearchUsingExtensionQuery : JValue

/-- The `input_value` object sent to the upstream backend: the user
input plus the optional knowledge-base sub-request. -/
structure InputValue where
  userInput : String
  kbParams : Option KbParams
  urlValue : Option String

/-- Lines 511–539 of `run_workflow`: build `input_value` from the merged
parameters, adding `kb_params`/`url_value` only when
`merged["knowledge"]` is truthy and its `items` list is non-empty, with
the documented per-field defaults on `settings`. -/
def buildInputValue (merged : List (String × JValue))
    (latestMessage fastgptBaseUrl : String) : InputValue :=
  let knowledge := (pyDictGet merged "knowledge").getD (.obj [])
  if knowledge.truthy then
    let kbSettings := knowledge.getD "settings" (.obj [])
    let kbItems := (knowledge.getD "items" (.arr [])).asArr
    match kbItems with
    | [] => { userInput := latestMessage, kbParams := none, urlValue := none }
    | d :: _ =>
      { userInput := latestMessage,
        kbParams := some
          { datasetId := d
            text := latestMessage
            searchMode := kbSettings.getD "searchMode" (.str "embedding")
            limit := kbSettings.getD "limit" (.num 10)
            similarity := kbSettings.getD "similarity" (.num (1/2))
            usingReRank := kbSettings.getD "usingReRank" (.jbool true)
            datasetSearchUsingExtensionQuery :=
              kbSettings.getD "datasetSearchUsingExtensionQuery"
                (.jbool false) }
        urlValue := some (fastgptBaseUrl ++ "/api/core/dataset/searchTest") }
  else { userInput := latestMessage, kbParams := none, urlValue := none }

/-- The errors `run_workflow` raises before calling the upstream API:
`noUserMessage` is HTTP 400 (`"未找到有效的用户消息"`),
`workflowNotFound` and `agentNotFound` are HTTP 404 (`NOT_FOUND`). -/
inductive RunError where
  | noUserMessage
  | workflowNotFound
  | agentNotFound
deriving DecidableEq, Repr

/-- A resolved workflow row, as consumed by `run_workflow`. -/
structure Workflow where
  apiPath : String
  appToken : String
  params : List (String × JValue)

/-- A resolved agent row, as consumed by `run_workflow`. -/
structure Agent where
  params : List (String × JValue)

/-- The upstream call `run_workflow` hands to `call_langflow_api`. -/
structure LangflowCall where
  url : String
  appToken : String
  inputValue : InputValue
  stream : Bool

/-- Function `run_workflow` up to the `call_langflow_api` invocation: the message
check, the workflow lookup, the agent lookup (`Agents.get_agent_by_id`
returns `none` both for a missing row and for an absent id), the
parameter merge and the payload build.  An `error` result is an
`HTTPException` raised before any upstream request. -/
def runWorkflow (messages : List ChatMessage) (wf : Option Workflow)
    (agent : Option Agent) (formStream : Bool)
    (langflowBaseUrl fastgptBaseUrl : String) :
    Except RunError LangflowCall :=
  let latest := latestUserMessage messages
  if pyStrip latest = "" then .error .noUserMessage
  else
    match wf with
    | none => .error .workflowNotFound
    | some w =>
      match agent with
      | none => .error .agentNotFound
      | some ag =>
        let appToken :=
          if w.appToken ≠ "" then w.appToken
          else if !w.params.isEmpty then
            ((pyDictGet w.params "app_token").bind JValue.asStr?).getD ""
          else ""
        let merged := mergeParams w.params ag.params
        .ok { url := langflowBaseUrl ++ w.apiPath
              appToken := appToken
              inputValue := buildInputValue merged latest fastgptBaseUrl
              stream := formStream }

/-- The `end`-event envelope, as classified by `process_stream_chunk`. -/
def endEnvelope (result : JValue) : JValue :=
  .obj [("event", .str "end"), ("data", .obj [("result", result)])]

/-! ## Theorems -/

/-- A frame that, if it is a complete event, carries non-empty
content. -/
def goodFrame (f : Frame) : Bool :=
  !f.isComplete || !(f.completeContent == "")

theorem innerLoop_good (l : List JValue) :
    ∀ s, ((innerLoop l s).1.all goodFrame) = true := by
  induction l with
  | nil => intro s; rfl
  | cons inner rest ih =>
    intro s
    simp only [innerLoop, List.all_append, Bool.and_eq_true]
    refine ⟨?_, ih _⟩
    cases h : innerContent? inner with
    | none => simp [h]
    | some content =>
      by_cases hc : content = "" <;> simp [h, hc, goodFrame, Frame.isComplete]

theorem outerLoop_good (l : List JValue) :
    ∀ s, ((outerLoop l s).1.all goodFrame) = true := by
  induction l with
  | nil => intro s; rfl
  | cons output rest ih =>
    intro s
    simp only [outerLoop, List.all_append, Bool.and_eq_true]
    refine ⟨?_, ih _⟩
    cases h : output.get? "outputs" with
    | none => simp [h]
    | some innerOuts =>
      by_cases ht : innerOuts.truthy <;> simp [h, ht, innerLoop_good]

theorem processJsonData_good (j : JValue) (s : StreamStats) :
    ((processJsonData j s).1.all goodFrame) = true := by
  unfold processJsonData
  cases h : j.get? "data" with
  | none => rfl
  | some jdata =>
    by_cases hr : jdata.hasKey "result"
    · simp only [hr, if_true]
      cases ho : (jdata.getD "result" JValue.null).get? "outputs" with
      | none => rfl
      | some outs =>
        by_cases ht : outs.truthy <;> simp [ht, outerLoop_good]
    · simp only [hr, if_false]
      by_cases he : j.getStr? "event" = some "token" ∧ jdata.hasKey "chunk"
      · simp only [he, if_true]
        cases hc : jdata.getStr? "chunk" with
        | none => rfl
        | some c =>
          by_cases h0 : c = "" <;> simp [h0, goodFrame, Frame.isComplete]
      · simp [he]

theorem processStreamChunk_good (c : Chunk) (s : StreamStats) :
    ((processStreamChunk c s).1.all goodFrame) = true := by
  cases c with
  | dataDone =>
    by_cases h : s.accumulated = "" <;>
      simp [processStreamChunk, h, goodFrame, Frame.isComplete]
  | dataJson j => exact processJsonData_good j s
  | dataBad => rfl
  | rawText t =>
    by_cases h : pyStrip t = "" <;>
      simp [processStreamChunk, h, goodFrame, Frame.isComplete]
  | rawJson j =>
    unfold processStreamChunk
    by_cases h1 : j.getStr? "event" = some "token" ∧
        (j.get? "data").elim false (fun d => d.hasKey "chunk")
    · simp only [h1, if_true]
      cases hc : (j.getD "data" JValue.null).getStr? "chunk" with
      | none => rfl
      | some tc =>
        by_cases h0 : tc = "" <;> simp [h0, goodFrame, Frame.isComplete]
    · simp only [h1, if_false]
      by_cases h2 : j.getStr? "event" = some "end" ∧
          (j.get? "data").elim false (fun d => d.hasKey "result")
      · simp only [h2, if_true]
        cases hf : endFinalContent ((j.getD "data" JValue.null).getD
            "result" JValue.null) with
        | none => rfl
        | some fc =>
          by_cases h0 : fc = "" <;>
            simp [h0, goodFrame, Frame.isComplete, Frame.completeContent]
      · simp only [h2, if_false]
        by_cases h3 : j.getStr? "event" = some "add_message"
        · simp [h3]
        · simpa [h3] using processJsonData_good j s

theorem runChunks_good (chunks : List Chunk) :
    ∀ s, ((runChunks chunks s).1.all goodFrame) = true := by
  induction chunks with
  | nil => intro s; rfl
  | cons c rest ih =>
    intro s
    simp only [runChunks, List.all_append, Bool.and_eq_true]
    exact ⟨processStreamChunk_good c s, ih _⟩

/-- C1 (counterexample): the streaming completion invariant fails as
stated.  An upstream `end` event followed by a normal close produces TWO
`langflow-complete` events (one from the `end` branch of
`process_stream_chunk`, one from the generator's closing block), and an
upstream `data: [DONE]` line mid-stream produces TWO `data: [DONE]`
frames (the forwarded one plus the generator's terminal one). -/
theorem c1_counterexample :
    ((relayFrames [Chunk.rawJson (endEnvelope (JValue.obj
        [("message", JValue.str "hi")]))]).filter Frame.isComplete).length
      = 2 ∧
    ((relayFrames [Chunk.dataDone]).filter Frame.isDone).length = 2 := by
  decide

/-- C1 (amended): for every finite upstream chunk sequence ending in a
normal close, the outbound SSE sequence ends with a terminal
`data: [DONE]` frame, and every `Complete` event's content is non-empty
(in particular whenever a `Token` event was previously emitted); the
sequence may however contain more than one `[DONE]` frame and more than
one `Complete` event. -/
theorem c1_streaming_invariant (chunks : List Chunk) :
    (relayFrames chunks).getLast? = some Frame.doneFrame ∧
      ((relayFrames chunks).all goodFrame) = true := by
  constructor
  · exact List.getLast?_concat _
  · by_cases hE : chunks.isEmpty <;>
    by_cases hA : (runChunks chunks
        { accumulated := "", sessionId := none }).2.accumulated = "" <;>
      simp [relayFrames, hE, hA, List.all_append, runChunks_good,
        goodFrame, Frame.isComplete, Frame.completeContent]

/-- C2 (counterexample): on an `end` event whose `result` carries a
`session_id` and a final message reachable only through the
`outputs[].outputs[].outputs.message.message` path, the code extracts
nothing (that path is not consulted by the reachable `end` branch),
records no session id, and emits the empty-response error instead of a
`Complete` event. -/
theorem c2_counterexample :
    relayFrames [Chunk.rawJson (endEnvelope (JValue.obj
      [("session_id", JValue.str "s1"),
       ("outputs", JValue.arr [JValue.obj [("outputs", JValue.arr
         [JValue.obj [("outputs", JValue.obj [("message", JValue.obj
           [("message", JValue.str "final")])])]])]])]))] =
      [Frame.errorFrame emptyRespMsg, Frame.doneFrame] ∧
    (runChunks [Chunk.rawJson (endEnvelope (JValue.obj
      [("session_id", JValue.str "s1"),
       ("outputs", JValue.arr [JValue.obj [("outputs", JValue.arr
         [JValue.obj [("outputs", JValue.obj [("message", JValue.obj
           [("message", JValue.str "final")])])]])]])]))]
      { accumulated := "", sessionId := none }).2 =
      { accumulated := "", sessionId := none } := by
  decide

/-- C2 (amended): the `end`-event handling extracts the final message by
trying only (a) `result.message` (whenever the key is present — an
empty value suppresses the `Complete` rather than falling through) and
then (b) `result.outputs[].outputs[].results.message.data.text`; the
`outputs[].outputs[].outputs.message.message` path is not consulted;
`result.session_id` is never recorded into `StreamStats.sessionId` (that
code is disabled); and when a non-empty final content is found, the
emitted `Complete` event's content replaces the previously accumulated
content. -/
theorem c2_end_event (result : JValue) (stats : StreamStats) :
    ((processStreamChunk (.rawJson (endEnvelope result)) stats).2.sessionId
        = stats.sessionId) ∧
    (∀ s, endFinalContent result = some s → s ≠ "" →
      processStreamChunk (.rawJson (endEnvelope result)) stats =
        ([Frame.completeFrame s (sessionIfTruthy stats.sessionId)],
         { accumulated := s, sessionId := stats.sessionId })) ∧
    (endFinalContent result = none →
      processStreamChunk (.rawJson (endEnvelope result)) stats =
        ([], stats)) ∧
    (endFinalContent result = some "" →
      processStreamChunk (.rawJson (endEnvelope result)) stats =
        ([], stats)) ∧
    endFinalContent (JValue.obj
      [("outputs", JValue.arr [JValue.obj [("outputs", JValue.arr
        [JValue.obj [("outputs", JValue.obj [("message", JValue.obj
          [("message", JValue.str "final")])])]])]])]) = none := by
  have hred : processStreamChunk (.rawJson (endEnvelope result)) stats =
      match endFinalContent result with
      | some fc =>
        if fc ≠ "" then
          ([Frame.completeFrame fc (sessionIfTruthy stats.sessionId)],
           { stats with accumulated := fc })
        else ([], stats)
      | none => ([], stats) := rfl
  refine ⟨?_, ?_, ?_, ?_, by decide⟩
  · rw [hred]
    cases hf : endFinalContent result with
    | none => rfl
    | some fc => by_cases h0 : fc = "" <;> simp [h0]
  · intro s hs h0
    rw [hred, hs]
    simp [h0]
  · intro hf; rw [hred, hf]
  · intro hf; rw [hred, hf]; simp

/-- C2 (witness): the amended end-event behaviour instantiated on a
concrete `result` with `result.message = "hi"` and previously
accumulated content `"prev"`: one `Complete` event replacing the
accumulation. -/
theorem c2_end_event_witness :
    processStreamChunk (.rawJson (endEnvelope (JValue.obj
        [("message", JValue.str "hi")])))
      { accumulated := "prev", sessionId := none } =
      ([Frame.completeFrame "hi" (sessionIfTruthy none)],
       { accumulated := "hi", sessionId := none }) :=
  (c2_end_event (JValue.obj [("message", JValue.str "hi")])
    { accumulated := "prev", sessionId := none }).2.1 "hi"
    (by decide) (by decide)

/-- C4 (counterexample): a stream that closes without ever emitting a
`Token` or `Complete` event does not always yield exactly one `Error`
event — an upstream that sends no chunks at all yields TWO `Error`
events (the no-data check plus the empty-content check) before
`[DONE]`. -/
theorem c4_counterexample :
    ((relayFrames []).filter Frame.isError).length = 2 ∧
    ((relayFrames []).filter Frame.isToken).length = 0 ∧
    ((relayFrames []).filter Frame.isComplete).length = 0 := by
  decide

/-- C4 (amended): a stream that closes with nothing accumulated (no
`Token` or `Complete` ever emitted) always ends with the empty-response
`Error` event immediately before the terminal `[DONE]` — never a silent
empty success — though an earlier `Error` event may precede it. -/
theorem c4_empty_response (chunks : List Chunk)
    (h : (runChunks chunks
      { accumulated := "", sessionId := none }).2.accumulated = "") :
    ∃ fs, relayFrames chunks =
      fs ++ [Frame.errorFrame emptyRespMsg, Frame.doneFrame] := by
  refine ⟨(runChunks chunks { accumulated := "", sessionId := none }).1
    ++ (if chunks.isEmpty then [Frame.errorFrame noDataMsg] else []), ?_⟩
  simp [relayFrames, h]

/-- C4 (witness): the amended empty-response behaviour on the concrete
chunkless upstream. -/
theorem c4_empty_response_witness :
    ∃ fs, relayFrames [] =
      fs ++ [Frame.errorFrame emptyRespMsg, Frame.doneFrame] :=
  c4_empty_response [] (by decide)

/-- C3 (counterexample): with `messages = [{role:"user",content:"hello"},
{role:"user",content:""}]`, the nearest-from-end user entry has blank
content and a non-blank user entry exists further back, yet extraction
selects the blank one and `run_workflow` raises the HTTP 400 validation
error instead of continuing the scan. -/
theorem c3_counterexample :
    latestUserMessage [⟨"user", some "hello"⟩, ⟨"user", some ""⟩] = "" ∧
    runWorkflow [⟨"user", some "hello"⟩, ⟨"user", some ""⟩]
      (some { apiPath := "/p", appToken := "t", params := [] })
      (some { params := [] }) true "" "" =
      .error RunError.noUserMessage :=
  ⟨rfl, rfl⟩

/-- C3 (amended): the extraction scans from the end and uses the first
entry with `role == "user"` and a `content` key, regardless of whether
its content is blank — it does not continue scanning past a blank user
message; the request fails with the validation error (HTTP 400), before
any upstream call, exactly when the selected content is blank after
trimming (in particular also when an earlier user entry is
non-blank). -/
theorem c3_latest_user_message (messages ms : List ChatMessage)
    (m : ChatMessage) (wf : Option Workflow) (ag : Option Agent)
    (fs : Bool) (lb fb : String) :
    (runWorkflow messages wf ag fs lb fb = .error RunError.noUserMessage ↔
      pyStrip (latestUserMessage messages) = "") ∧
    (m.role = "user" → m.content.isSome →
      latestUserMessage (ms ++ [m]) = m.content.getD "") ∧
    (¬(m.role = "user" ∧ m.content.isSome) →
      latestUserMessage (ms ++ [m]) = latestUserMessage ms) := by
  refine ⟨?_, ?_, ?_⟩
  · by_cases h : pyStrip (latestUserMessage messages) = ""
    · simp [runWorkflow, h]
    · simp only [runWorkflow, h, if_false]
      cases wf with
      | none => simp
      | some w => cases ag with
        | none => simp
        | some a => simp
  · intro h1 h2
    simp [latestUserMessage, List.reverse_append, latestUserMessageAux,
      h1, h2]
  · intro h
    simp [latestUserMessage, List.reverse_append, latestUserMessageAux, h]

/-- C3 (witness): the amended extraction instantiated on concrete
message lists: a trailing user entry is taken even next to others, and a
trailing assistant entry is skipped. -/
theorem c3_latest_user_message_witness :
    latestUserMessage ([⟨"assistant", some "hi"⟩] ++ [⟨"user", some "x"⟩])
      = (some "x").getD "" ∧
    latestUserMessage ([⟨"user", some "y"⟩] ++ [⟨"assistant", some "z"⟩])
      = latestUserMessage [⟨"user", some "y"⟩] :=
  ⟨(c3_latest_user_message [] [⟨"assistant", some "hi"⟩]
      ⟨"user", some "x"⟩ none none true "" "").2.1 rfl rfl,
   (c3_latest_user_message [] [⟨"user", some "y"⟩]
      ⟨"assistant", some "z"⟩ none none true "" "").2.2 (by decide)⟩

/-- C8 (counterexample): a run request with a resolving workflow and a
valid user message but an absent/unresolvable agent id fails with the
404 `NOT_FOUND` error before any upstream call — it does not proceed
without an agent-level override. -/
theorem c8_counterexample :
    runWorkflow [⟨"user", some "hi"⟩]
      (some { apiPath := "/p", appToken := "t", params := [] })
      none true "" "" = .error RunError.agentNotFound :=
  rfl

/-- C8 (amended): the agent is effectively required: whenever
`Agents.get_agent_by_id` yields no agent (which includes an absent
`agent_id`), `run_workflow` raises HTTP 404 before the upstream call,
for every resolving workflow and valid user message. -/
theorem c8_agent_required (messages : List ChatMessage) (w : Workflow)
    (fs : Bool) (lb fb : String)
    (h : pyStrip (latestUserMessage messages) ≠ "") :
    runWorkflow messages (some w) none fs lb fb =
      .error RunError.agentNotFound := by
  simp [runWorkflow, h]

/-- C8 (witness): the amended agent-required behaviour on a concrete
valid request without an agent. -/
theorem c8_agent_required_witness :
    runWorkflow [⟨"user", some "hi"⟩]
      (some { apiPath := "", appToken := "", params := [] })
      none false "" "" = .error RunError.agentNotFound :=
  c8_agent_required [⟨"user", some "hi"⟩]
    { apiPath := "", appToken := "", params := [] } false "" ""
    (by decide)

lemma find?_filter_none {α : Type} (p q : α → Bool) (l : List α)
    (h : ∀ a, p a = true → q a = false) :
    (l.filter q).find? p = none := by
  induction l with
  | nil => rfl
  | cons a t ih =>
    by_cases hq : q a = true
    · have hp : p a = false := by
        by_cases hp : p a = true
        · rw [h a hp] at hq; exact absurd hq (by simp)
        · simpa using hp
      simp [List.filter_cons, hq, List.find?_cons, hp, ih]
    · simp only [Bool.not_eq_true] at hq
      simp [List.filter_cons, hq, ih]

lemma find?_filter_same {α : Type} (p q : α → Bool) (l : List α)
    (h : ∀ a, p a = true → q a = true) :
    (l.filter q).find? p = l.find? p := by
  induction l with
  | nil => rfl
  | cons a t ih =>
    by_cases hp : p a = true
    · simp [List.filter_cons, h a hp, List.find?_cons, hp]
    · by_cases hq : q a = true <;>
        simp [List.filter_cons, hq, List.find?_cons, hp, ih]

lemma pyDictGet_mergeParams (wp ap : List (String × JValue)) (k : String) :
    pyDictGet (mergeParams wp ap) k =
      (pyDictGet ap k).or (pyDictGet wp k) := by
  have hfind : (mergeParams wp ap).find? (fun p => p.1 = k) =
      ((wp.filter (fun p => (pyDictGet ap p.1).isNone)).find?
          (fun p => p.1 = k)).or
        (ap.find? (fun p => p.1 = k)) := by
    unfold mergeParams
    exact List.find?_append
  cases ha : ap.find? (fun p => p.1 = k) with
  | some pv =>
    have hnone : (wp.filter
        (fun p => (pyDictGet ap p.1).isNone)).find? (fun p => p.1 = k)
        = none := by
      apply find?_filter_none
      intro a hak
      have hak' : a.1 = k := by simpa using hak
      simp [pyDictGet, hak', ha]
    unfold pyDictGet
    rw [hfind, hnone, ha]
    rfl
  | none =>
    have hsame : (wp.filter
        (fun p => (pyDictGet ap p.1).isNone)).find? (fun p => p.1 = k)
        = wp.find? (fun p => p.1 = k) := by
      apply find?_filter_same
      intro a hak
      have hak' : a.1 = k := by simpa using hak
      simp [pyDictGet, hak', ha]
    unfold pyDictGet
    rw [hfind, hsame, ha]
    cases wp.find? (fun p => p.1 = k) <;> rfl

lemma JValue.truthy_of_get? (j : JValue) (k : String) (v : JValue)
    (h : j.get? k = some v) : j.truthy = true := by
  cases j <;> simp [JValue.get?] at h
  case obj fs =>
    cases fs with
    | nil => simp [List.find?] at h
    | cons a t => simp [JValue.truthy]

/-- C7 (confirmed): the merged parameters are a shallow merge in which an
agent-level binding overrides a workflow-level binding of the same key;
when `merged.knowledge` is falsy (absent or empty) or its `items` list
is empty the payload carries no `kb_params` key; and when `items` is
non-empty, `kb_params.datasetId` is `items[0]` and each absent
`settings` field takes its default (`searchMode="embedding"`,
`limit=10`, `similarity=0.5`, `usingReRank=True`,
`datasetSearchUsingExtensionQuery=False`). -/
theorem c7_param_merger (wp ap merged : List (String × JValue))
    (k msg base : String) (d : JValue) (rest : List JValue) :
    (pyDictGet (mergeParams wp ap) k =
      (pyDictGet ap k).or (pyDictGet wp k)) ∧
    (((pyDictGet merged "knowledge").getD (.obj [])).truthy = false →
      (buildInputValue merged msg base).kbParams = none) ∧
    ((((pyDictGet merged "knowledge").getD (.obj [])).getD "items"
        (.arr [])).asArr = [] →
      (buildInputValue merged msg base).kbParams = none) ∧
    ((((pyDictGet merged "knowledge").getD (.obj [])).getD "items"
        (.arr [])).asArr = d :: rest →
      buildInputValue merged msg base =
        { userInput := msg,
          kbParams := some
            { datasetId := d, text := msg,
              searchMode := (((pyDictGet merged "knowledge").getD
                (.obj [])).getD "settings" (.obj [])).getD "searchMode"
                (.str "embedding"),
              limit := (((pyDictGet merged "knowledge").getD
                (.obj [])).getD "settings" (.obj [])).getD "limit"
                (.num 10),
              similarity := (((pyDictGet merged "knowledge").getD
                (.obj [])).getD "settings" (.obj [])).getD "similarity"
                (.num (1/2)),
              usingReRank := (((pyDictGet merged "knowledge").getD
                (.obj [])).getD "settings" (.obj [])).getD "usingReRank"
                (.jbool true),
              datasetSearchUsingExtensionQuery :=
                (((pyDictGet merged "knowledge").getD
                  (.obj [])).getD "settings" (.obj [])).getD
                  "datasetSearchUsingExtensionQuery" (.jbool false) },
          urlValue := some (base ++ "/api/core/dataset/searchTest") }) ∧
    ((((pyDictGet merged "knowledge").getD (.obj [])).getD "items"
        (.arr [])).asArr = d :: rest →
      ((pyDictGet merged "knowledge").getD (.obj [])).get? "settings"
        = none →
      buildInputValue merged msg base =
        { userInput := msg,
          kbParams := some
            { datasetId := d, text := msg,
              searchMode := .str "embedding", limit := .num 10,
              similarity := .num (1/2), usingReRank := .jbool true,
              datasetSearchUsingExtensionQuery := .jbool false },
          urlValue := some (base ++ "/api/core/dataset/searchTest") }) := by
  have htruthy : ∀ dd rr,
      (((pyDictGet merged "knowledge").getD (.obj [])).getD "items"
        (.arr [])).asArr = dd :: rr →
      ((pyDictGet merged "knowledge").getD (.obj [])).truthy = true := by
    intro dd rr hitems
    cases hi : ((pyDictGet merged "knowledge").getD
        (.obj [])).get? "items" with
    | none =>
      rw [JValue.getD, hi] at hitems
      simp [JValue.asArr] at hitems
    | some v =>
      exact JValue.truthy_of_get? _ "items" v hi
  refine ⟨pyDictGet_mergeParams wp ap k, ?_, ?_, ?_, ?_⟩
  · intro h
    simp [buildInputValue, h]
  · intro h
    by_cases ht : ((pyDictGet merged "knowledge").getD (.obj [])).truthy
    · simp [buildInputValue, ht, h]
    · simp [buildInputValue, ht]
  · intro hitems
    have ht := htruthy d rest hitems
    simp only [buildInputValue, ht, if_true, hitems]
  · intro hitems hsettings
    have ht := htruthy d rest hitems
    have hset2 : ((pyDictGet merged "knowledge").getD
        (JValue.obj [])).getD "settings" (JValue.obj [])
        = JValue.obj [] := by
      rw [JValue.getD, hsettings]; rfl
    simp only [buildInputValue, ht, if_true, hset2, hitems]
    rfl

/-- C7 (witness): the param merger instantiated on concrete inputs: an
agent override wins on a shared key, `knowledge.items = []` yields no
`kb_params`, and `knowledge.items = ["ds1"]` with no `settings` yields
the fully defaulted `kb_params`. -/
theorem c7_param_merger_witness :
    (pyDictGet (mergeParams [("a", JValue.str "w")] [("a", JValue.str "g")])
        "a" =
      (pyDictGet [("a", JValue.str "g")] "a").or
        (pyDictGet [("a", JValue.str "w")] "a")) ∧
    (buildInputValue [("knowledge", JValue.obj
        [("items", JValue.arr [])])] "m" "B").kbParams = none ∧
    buildInputValue [("knowledge", JValue.obj
        [("items", JValue.arr [JValue.str "ds1"])])] "m" "B" =
      { userInput := "m",
        kbParams := some
          { datasetId := JValue.str "ds1", text := "m",
            searchMode := .str "embedding", limit := .num 10,
            similarity := .num (1/2), usingReRank := .jbool true,
            datasetSearchUsingExtensionQuery := .jbool false },
        urlValue := some ("B" ++ "/api/core/dataset/searchTest") } :=
  ⟨(c7_param_merger [("a", JValue.str "w")] [("a", JValue.str "g")] []
      "a" "m" "B" JValue.null []).1,
   (c7_param_merger [] [] [("knowledge", JValue.obj
      [("items", JValue.arr [])])] "a" "m" "B" JValue.null []).2.2.1 rfl,
   (c7_param_merger [] [] [("knowledge", JValue.obj
      [("items", JValue.arr [JValue.str "ds1"])])] "a" "m" "B"
      (JValue.str "ds1") []).2.2.2.2 rfl rfl⟩



lemma retryAux_allFail (e : Nat → String) (b : Nat) :
    ∀ (m i : Nat),
      retryAux (fun t => (Except.error (e t) : Except String String))
          b i (m + 1) =
        (.error (e (i + m)), m + 1, (List.range' i m).map (b ^ ·)) := by
  intro m
  induction m with
  | zero => intro i; rfl
  | succ n ih =>
    intro i
    rw [retryAux.eq_def]
    simp only []
    rw [ih (i + 1)]
    have h1 : i + 1 + n = i + (n + 1) := by omega
    have h2 : List.range' i (n + 1) = i :: List.range' (i + 1) n :=
      List.range'_succ i n 1
    simp [h1, h2]

lemma retryAux_okAt (b : Nat) (f : Nat → Except String String)
    (e : Nat → String) (v : String) :
    ∀ (k i n : Nat), k ≤ n →
      (∀ t, t < k → f (i + t) = .error (e (i + t))) →
      f (i + k) = .ok v →
      retryAux f b i (n + 1) =
        (.ok v, k + 1, (List.range' i k).map (b ^ ·)) := by
  intro k
  induction k with
  | zero =>
    intro i n _ _ hok
    rw [Nat.add_zero] at hok
    rw [retryAux.eq_def]
    simp [hok]
  | succ k' ih =>
    intro i n hk herr hok
    cases n with
    | zero => omega
    | succ n' =>
      have hi : f i = .error (e i) := by
        have := herr 0 (by omega)
        simpa using this
      have hrest := ih (i + 1) n' (by omega)
        (fun t ht => by
          have := herr (t + 1) (by omega)
          rw [show i + (t + 1) = i + 1 + t by omega] at this
          exact this)
        (by rw [show i + 1 + k' = i + (k' + 1) by omega]; exact hok)
      rw [retryAux.eq_def]
      simp only [hi]
      rw [hrest]
      have h2 : List.range' i (k' + 1) = i :: List.range' (i + 1) k' :=
        List.range'_succ i k' 1
      simp [h2]

/-- C5 (confirmed): `retry_with_backoff` over an always-failing operation
performs exactly `max_retries + 1` attempts (3 at the defaults), sleeps
`backoff_factor ^ i` seconds between attempt `i` and attempt `i + 1`
(the series 1, 2, 4, ... at factor 2), and propagates the last error
unchanged; an operation that succeeds at attempt `k ≤ max_retries`
returns its result immediately after `k + 1` attempts with no further
retries. -/
theorem c5_retry_with_backoff (e : Nat → String) (m b k : Nat)
    (v : String) :
    (retryWithBackoff (fun t => (Except.error (e t) :
        Except String String)) m b =
      (.error (e m), m + 1, (List.range m).map (b ^ ·))) ∧
    (retryWithBackoff (fun _ => (Except.ok v : Except String String)) m b
      = (.ok v, 1, [])) ∧
    (MAX_RETRIES + 1 = 3 ∧
      retryWithBackoffDefault (fun t => (Except.error (e t) :
          Except String String)) =
        (.error (e 2), 3, [1, 2])) ∧
    (k ≤ m →
      retryWithBackoff
          (fun t => if t < k then .error (e t) else .ok v) m b =
        (.ok v, k + 1, (List.range k).map (b ^ ·))) := by
  refine ⟨?_, ?_, ⟨rfl, ?_⟩, ?_⟩
  · unfold retryWithBackoff
    rw [retryAux_allFail e b m 0, List.range_eq_range']
    simp
  · unfold retryWithBackoff
    rw [retryAux.eq_def]
  · show retryWithBackoff (fun t => (Except.error (e t) :
        Except String String)) 2 2 = _
    unfold retryWithBackoff
    rw [retryAux_allFail e 2 2 0]
    rfl
  · intro hk
    unfold retryWithBackoff
    rw [retryAux_okAt b _ e v k 0 m hk
      (fun t ht => by simp [Nat.zero_add, ht])
      (by simp), List.range_eq_range']

/-- C5 (witness): the retry behaviour instantiated at the defaults on an
always-failing operation and on one succeeding at the second attempt. -/
theorem c5_retry_with_backoff_witness :
    (retryWithBackoff (fun t => (Except.error (toString t) :
        Except String String)) 2 2 =
      (.error (toString 2), 3, (List.range 2).map (2 ^ ·))) ∧
    (retryWithBackoff
        (fun t => if t < 1 then .error (toString t) else .ok "r") 2 2 =
      (.ok "r", 2, (List.range 1).map (2 ^ ·))) :=
  ⟨(c5_retry_with_backoff toString 2 2 1 "r").1,
   (c5_retry_with_backoff toString 2 2 1 "r").2.2.2 (by decide)⟩

/-- C6 (confirmed): with `stream=True`, `call_langflow_api` issues
exactly one upstream POST, its outcome is independent of the
non-streaming transport and of the retry configuration (the
Retry/Backoff Controller is bypassed entirely), and it depends only on
that single upstream exchange — a failure after bytes have streamed is
terminal for the call. -/
theorem c6_streaming_no_retry (su su2 : Nat → UpstreamResponse)
    (ns ns2 : Nat → Except String JValue) (m m2 b b2 : Nat) :
    ((callLangflowApi true su ns m b).2 = 1) ∧
    (callLangflowApi true su ns m b = callLangflowApi true su ns2 m2 b2) ∧
    (su 0 = su2 0 →
      callLangflowApi true su ns m b =
        callLangflowApi true su2 ns2 m2 b2) := by
  refine ⟨rfl, rfl, ?_⟩
  intro h
  simp [callLangflowApi, h]

/-- C6 (witness): the single-attempt behaviour instantiated on two
concrete upstream transports that agree on the first exchange but
differ afterwards, under different retry configurations. -/
theorem c6_streaming_no_retry_witness :
    callLangflowApi true (fun _ => ⟨true, 200, []⟩)
        (fun _ => .error "down") 2 2 =
      callLangflowApi true
        (fun n => if n = 0 then ⟨true, 200, []⟩ else ⟨false, 500, []⟩)
        (fun _ => .ok JValue.null) 9 9 :=
  (c6_streaming_no_retry (fun _ => ⟨true, 200, []⟩)
    (fun n => if n = 0 then ⟨true, 200, []⟩ else ⟨false, 500, []⟩)
    (fun _ => .error "down") (fun _ => .ok JValue.null) 2 9 2 9).2.2 rfl

lemma strData_append : ∀ (a b : String), (a ++ b).data = a.data ++ b.data
  | ⟨_⟩, ⟨_⟩ => rfl

lemma listStarts_append (p : List Char) :
    ∀ (a b : List Char), listStarts p a = true →
      listStarts p (a ++ b) = true := by
  induction p with
  | nil => intro a b _; rfl
  | cons c cs ih =>
    intro a b h
    cases a with
    | nil => simp [listStarts] at h
    | cons x xs =>
      simp only [List.cons_append, listStarts, Bool.and_eq_true] at h ⊢
      exact ⟨h.1, ih xs b h.2⟩

/-- C9 (counterexample): `format_url` is not idempotent for every base
and path — with the scheme-less base `"x"`, a second application
prepends the base again: `format_url("x", format_url("x","y"))` is
`"x/x/y"`, not `"x/y"`. -/
theorem c9_counterexample :
    formatUrl "x" (formatUrl "x" "y") ≠ formatUrl "x" "y" := by
  decide

/-- C9 (amended): `format_url` returns absolute (`http://`/`https://`)
paths unchanged with the base ignored; it joins base and path with a
single `/` regardless of trailing/leading slash variation
(`format_url("http://x/","/y") == format_url("http://x","y") ==
"http://x/y"`); and it is idempotent whenever the base URL begins (after
trailing-slash stripping) with `http://` or `https://` — for scheme-less
bases idempotence fails. -/
theorem c9_format_url (base path : String) :
    ((strStarts path "http://" || strStarts path "https://") = true →
      formatUrl base path = path) ∧
    ((strStarts (rstripSlash base) "http://" ||
        strStarts (rstripSlash base) "https://") = true →
      formatUrl base (formatUrl base path) = formatUrl base path) ∧
    (formatUrl "http://x/" "/y" = formatUrl "http://x" "y" ∧
      formatUrl "http://x" "y" = "http://x/y") := by
  refine ⟨?_, ?_, by decide, by decide⟩
  · intro h
    simp [formatUrl, h]
  · intro hb
    by_cases hp : (strStarts path "http://" ||
        strStarts path "https://") = true
    · simp [formatUrl, hp]
    · have hjoin : formatUrl base path =
          rstripSlash base ++ "/" ++ lstripSlash path := by
        simp [formatUrl, hp]
      have habs : (strStarts (rstripSlash base ++ "/" ++ lstripSlash path)
            "http://" ||
          strStarts (rstripSlash base ++ "/" ++ lstripSlash path)
            "https://") = true := by
        have hb2 : strStarts (rstripSlash base) "http://" = true ∨
            strStarts (rstripSlash base) "https://" = true := by
          simpa using hb
        rcases hb2 with h1 | h1
        · have h3 : strStarts (rstripSlash base ++ "/" ++ lstripSlash path)
              "http://" = true := by
            unfold strStarts at h1 ⊢
            rw [strData_append, strData_append]
            exact listStarts_append _ _ _ (listStarts_append _ _ _ h1)
          simp [h3]
        · have h3 : strStarts (rstripSlash base ++ "/" ++ lstripSlash path)
              "https://" = true := by
            unfold strStarts at h1 ⊢
            rw [strData_append, strData_append]
            exact listStarts_append _ _ _ (listStarts_append _ _ _ h1)
          simp [h3]
      rw [hjoin]
      simp [formatUrl, habs]

/-- C9 (witness): the amended URL-formatting behaviour instantiated on
concrete inputs: an absolute path passes through unchanged, and
formatting under the schemed base `"http://x"` is idempotent. -/
theorem c9_format_url_witness :
    formatUrl "b" "http://a/c" = "http://a/c" ∧
    formatUrl "http://x" (formatUrl "http://x" "y") =
      formatUrl "http://x" "y" :=
  ⟨(c9_format_url "b" "http://a/c").1 (by decide),
   (c9_format_url "http://x" "y").2.1 (by decide)⟩

/-- C10 (confirmed): `create_headers` with a blank token (empty or
whitespace-only) returns only the `Content-Type` and `Accept` headers —
no `x-api-key` or other authentication header — and with a non-blank
token it adds `x-api-key` equal to the token verbatim. -/
theorem c10_create_headers (token : String) :
    (pyStrip token = "" → createHeaders token =
      [("Content-Type", "application/json"),
       ("Accept", "application/json")]) ∧
    (pyStrip token ≠ "" → createHeaders token =
      [("Content-Type", "application/json"),
       ("Accept", "application/json"), ("x-api-key", token)]) := by
  constructor
  · intro h
    simp [createHeaders, h]
  · intro h
    have ht : token ≠ "" := by
      intro he
      rw [he] at h
      exact h rfl
    simp [createHeaders, ht, h]

/-- C10 (witness): the header construction instantiated on the blank
token `" "` and the non-blank token `"tok"`. -/
theorem c10_create_headers_witness :
    createHeaders " " =
      [("Content-Type", "application/json"),
       ("Accept", "application/json")] ∧
    createHeaders "tok" =
      [("Content-Type", "application/json"),
       ("Accept", "application/json"), ("x-api-key", "tok")] :=
  ⟨(c10_create_headers " ").1 (by decide),
   (c10_create_headers "tok").2 (by decide)⟩
